import Mathlib

/-!
Shallow embedding of `ical2orgpy.py` (the ical2org.py converter) and proofs
about it.

Modelling conventions:

* A Python `datetime.date` is a proleptic-Gregorian calendar date,
  represented by its day number relative to 1970-01-01 (an `Int`); Python's
  `date ± timedelta(days = k)` is exact calendar arithmetic, i.e. `±k` on
  the day number.
* A timezone-aware Python `datetime` is an absolute instant, represented by
  minutes since 1970-01-01T00:00 UTC (an `Int`).  All instants appearing in
  the program are whole minutes (the output format has minute granularity).
* A `pytz` timezone is represented by its UTC-offset function in minutes
  (a function of the absolute instant, so DST is representable);
  `dt.astimezone(tz)` maps the instant to local wall-clock minutes.
* Python strings are Lean `String`s; `icalendar` property objects are
  modelled by the text `prop.to_ical().decode("utf-8")` yields, and a
  property missing from a component is `Option.none`.
* A raised Python exception in `create_entry` is modelled by `Option.none`;
  the generator/driver plumbing models the except-clauses explicitly.
-/

namespace Ical2Org

/-! ### Calendar arithmetic (model of `datetime.date` / `datetime.datetime`) -/

/-- Day number → (year, month, day) in the proleptic Gregorian calendar
(days counted from 1970-01-01).  Standard civil-from-days algorithm. -/
def civilFromDays (z0 : Int) : Int × Nat × Nat :=
  let z := z0 + 719468
  let era := Int.fdiv z 146097
  let doe := (z - era * 146097).toNat
  let yoe := (doe - doe / 1460 + doe / 36524 - doe / 146096) / 365
  let doy := doe - (365 * yoe + yoe / 4 - yoe / 100)
  let mp := (5 * doy + 2) / 153
  let d := doy - (153 * mp + 2) / 5 + 1
  let m := if mp < 10 then mp + 3 else mp - 9
  let y := (era * 400 + yoe : Int) + (if m ≤ 2 then 1 else 0)
  (y, m, d)

/-- (year, month, day) → day number (inverse of `civilFromDays`). -/
def daysFromCivil (y0 : Int) (m : Nat) (d : Nat) : Int :=
  let y := y0 - (if m ≤ 2 then 1 else 0)
  let era := Int.fdiv y 400
  let yoe := (y - era * 400).toNat
  let doy := (153 * (if m > 2 then m - 3 else m + 9) + 2) / 5 + d - 1
  let doe := yoe * 365 + yoe / 4 - yoe / 100 + doy
  era * 146097 + (doe : Int) - 719468

/-- Three-letter English weekday abbreviation of a day number
(1970-01-01 was a Thursday), as produced by `strftime("%a")` in the C
locale. -/
def weekdayAbbrev (z : Int) : String :=
  [ "Mon", "Tue", "Wed", "Thu", "Fri", "Sat", "Sun" ].getD
    ((Int.emod (z + 3) 7).toNat) ""

/-- Zero-pad a natural number to two digits (`strftime` `%m %d %H %M`). -/
def pad2 (n : Nat) : String :=
  if n < 10 then "0" ++ toString n else toString n

/-- Zero-pad a year to four digits (`strftime` `%Y`). -/
def pad4 (y : Int) : String :=
  let n := y.toNat
  if n < 10 then "000" ++ toString n
  else if n < 100 then "00" ++ toString n
  else if n < 1000 then "0" ++ toString n
  else toString n

/-- `strftime("%Y-%m-%d")` of a day number. -/
def fmtYMD (z : Int) : String :=
  let c := civilFromDays z
  pad4 c.1 ++ "-" ++ pad2 c.2.1 ++ "-" ++ pad2 c.2.2

/-- A display timezone: its UTC offset in minutes, as a function of the
absolute instant (minutes since the epoch), so DST rules are expressible. -/
structure Timezone where
  offset : Int → Int

/-- Model of `dt.astimezone(tz)` on an aware datetime: the local wall-clock
time, in minutes since the epoch's local midnight. -/
def astimezone (t : Int) (tz : Timezone) : Int := t + tz.offset t

/-- `strftime("<%Y-%m-%d %a>")` of a calendar date (day number). -/
def strftimeDateFmt (z : Int) : String :=
  "<" ++ fmtYMD z ++ " " ++ weekdayAbbrev z ++ ">"

/-- `strftime("<%Y-%m-%d %a %H:%M>")` of local wall-clock minutes. -/
def strftimeDatetimeFmt (lm : Int) : String :=
  let z := Int.fdiv lm 1440
  let tod := (Int.emod lm 1440).toNat
  "<" ++ fmtYMD z ++ " " ++ weekdayAbbrev z ++ " " ++ pad2 (tod / 60)
    ++ ":" ++ pad2 (tod % 60) ++ ">"

/-- Source `orgDatetime(dt, tz)`:
`dt.astimezone(tz).strftime("<%Y-%m-%d %a %H:%M>")`. -/
def orgDatetime (dt : Int) (tz : Timezone) : String :=
  strftimeDatetimeFmt (astimezone dt tz)

/-- A `DTSTART`/`DTEND` value: either a plain calendar date (day number) or
a timezone-aware datetime (absolute instant in minutes). -/
inductive DT where
  | onlyDate (d : Int)
  | dateTime (t : Int)
deriving DecidableEq

/-- Source `orgDate(dt, tz)`: converts into `tz` when the value has an
`astimezone` method (i.e. is a datetime), then
`strftime("<%Y-%m-%d %a>")`. -/
def orgDate (dt : DT) (tz : Timezone) : String :=
  match dt with
  | .dateTime t => strftimeDateFmt (Int.fdiv (astimezone t tz) 1440)
  | .onlyDate d => strftimeDateFmt d

/-! ### Concrete timezones used by the repository's tests -/

/-- Model of `pytz.utc`: constant zero offset. -/
def utc : Timezone := ⟨fun _ => 0⟩

/-- Day number of the last Sunday of month `m` (whose length is `len`)
of year `y`. -/
def lastSundayZ (y : Int) (m len : Nat) : Int :=
  let z := daysFromCivil y m len
  z - Int.emod (z + 4) 7

/-- Model of `pytz.timezone("Europe/Prague")`: CET (UTC+1), with the EU
daylight-saving rule in force since 1996 — UTC+2 from 01:00 UTC on the
last Sunday of March until 01:00 UTC on the last Sunday of October. -/
def pragueOffset (t : Int) : Int :=
  let y := (civilFromDays (Int.fdiv t 1440)).1
  let dstStart := lastSundayZ y 3 31 * 1440 + 60
  let dstEnd := lastSundayZ y 10 31 * 1440 + 60
  if dstStart ≤ t ∧ t < dstEnd then 120 else 60

/-- The `Europe/Prague` display timezone. -/
def prague : Timezone := ⟨pragueOffset⟩

/-- Absolute instant (minutes since epoch) of a UTC wall-clock time. -/
def utcInstant (y : Int) (m d h mi : Nat) : Int :=
  daysFromCivil y m d * 1440 + (h * 60 + mi : Nat)

/-! ### Event components and the entry formatter -/

/-- Python `datetime.timedelta`, normalised as CPython keeps it: a day count
(possibly negative) plus a sub-day part, here in whole minutes,
`0 ≤ mins < 1440`.  `date + timedelta` uses only `days`;
`datetime + timedelta` uses both. -/
structure Timedelta where
  days : Int
  mins : Nat
deriving DecidableEq

/-- Python `dt_value + timedelta`: a plain date advances by whole days only
(CPython `date.__add__` ignores the sub-day part), an aware datetime by the
full span. -/
def addDur : DT → Timedelta → DT
  | .onlyDate d, dur => .onlyDate (d + dur.days)
  | .dateTime t, dur => .dateTime (t + dur.days * 1440 + dur.mins)

/-- One calendar component as `create_entry` consumes it (one occurrence,
post-expansion).  Each field is the decoded `to_ical()` text (resp. parsed
`.dt` value) of the property, `none` when the property is absent.
`rrule` records `"RRULE" in comp`. -/
structure VEvent where
  summary : Option String
  location : Option String
  dtstart : Option DT
  dtend : Option DT
  duration : Option Timedelta
  rrule : Bool
  description : Option String
deriving DecidableEq

/-- Replace every (leftmost, non-overlapping) occurrence of the two-character
pattern `[a, b]` by `repl`, scanning left to right exactly as Python
`str.replace` / `str.split` + `join` do. -/
def replacePair (a b : Char) (repl : List Char) : List Char → List Char
  | [] => []
  | [x] => [x]
  | x :: y :: rest =>
    if x = a ∧ y = b then repl ++ replacePair a b repl rest
    else x :: replacePair a b repl (y :: rest)

/-- Python `s.replace("\\,", ",")` (the two-character sequence backslash
comma becomes a comma). -/
def unescapeCommas (s : String) : String :=
  ⟨replacePair '\\' ',' [','] s.data⟩

/-- Python `"\n".join(s.split("\\n"))` (the two-character sequence backslash
`n` becomes a newline). -/
def unescapeNewlines (s : String) : String :=
  ⟨replacePair '\\' 'n' ['\n'] s.data⟩

/-- Source `Convertor.RECUR_TAG`. -/
def RECUR_TAG : String := "\t:RECURRING:"

/-- The state a `Convertor` instance carries (`__init__`): the display
timezone, the window half-width in days, and the continue-on-error flag. -/
structure Convertor where
  tz : Timezone
  days : Int
  continue_on_error : Bool

/-- Text of an optional escaped property as `create_entry` computes it:
initialised to `""`, and overwritten with the comma-unescaped decoded text
when the property is present. -/
def fieldText (f : Option String) : String :=
  match f with
  | some s => unescapeCommas s
  | none => ""

/-- Heading line of `create_entry`: unescape summary and location (absent
defaults to the empty string), substitute `(No title)` when both are empty,
otherwise append `" - " + location` when location is non-empty; then the
recurrence tag when `RRULE` is present. -/
def titlePart (comp : VEvent) : String :=
  let summary := fieldText comp.summary
  let location := fieldText comp.location
  let title :=
    if summary = "" ∧ location = "" then "(No title)"
    else if location = "" then summary
    else summary ++ " - " ++ location
  let tag := if comp.rrule then RECUR_TAG else ""
  "* " ++ title ++ tag ++ "\n"

/-- The `ev_end` computed by `create_entry`: `DTEND` when present, else
`ev_start + DURATION` when `DURATION` is present and `ev_start` is not
`None`, else `None`.  (The local variable `duration` set in the `DTEND`
branch of the source is never read afterwards and is not modelled.) -/
def computeEnd (ev_start : Option DT) (comp : VEvent) : Option DT :=
  match comp.dtend with
  | some e => some e
  | none =>
    match comp.duration, ev_start with
    | some dur, some s => some (addDur s dur)
    | _, _ => none

/-- Timestamp line of `create_entry` (the empty string when `ev_start` is
`None`, since no line is appended then).  `none` models the exceptions the
source raises on these paths:

* `ev_start` an aware datetime but `ev_end` `None` or a plain date —
  `orgDatetime` calls `.astimezone` on it, an `AttributeError`;
* `ev_start` a plain date but `ev_end` `None` —
  `ev_end - timedelta(days=1)` is a `TypeError`.

When `ev_start` is a plain date and `ev_end` an aware datetime, Python's
`date == datetime` comparison is `False`, so the multiple-day branch runs
and `orgDate` converts `ev_end - timedelta(days=1)` into the display
timezone. -/
def timestampPart (ev_start ev_end : Option DT) (tz : Timezone) :
    Option String :=
  match ev_start with
  | some (.dateTime t) =>
    match ev_end with
    | some (.dateTime t2) =>
      some ("  " ++ orgDatetime t tz ++ "--" ++ orgDatetime t2 tz ++ "\n")
    | _ => none
  | some (.onlyDate d) =>
    match ev_end with
    | none => none
    | some (.onlyDate e) =>
      if d = e - 1 then
        some ("  " ++ orgDate (.onlyDate d) tz ++ "\n")
      else
        some ("  " ++ orgDate (.onlyDate d) tz ++ "--"
          ++ orgDate (.onlyDate (e - 1)) tz ++ "\n")
    | some (.dateTime t2) =>
      some ("  " ++ orgDate (.onlyDate d) tz ++ "--"
        ++ orgDate (.dateTime (t2 - 1440)) tz ++ "\n")
  | none => some ""

/-- Description block of `create_entry`: when `DESCRIPTION` is present,
unescape `\n` then `\,` and append one newline; absent yields nothing. -/
def descriptionPart (comp : VEvent) : String :=
  match comp.description with
  | some s => unescapeCommas (unescapeNewlines s) ++ "\n"
  | none => ""

/-- Source `Convertor.create_entry(comp)`: the concatenation of heading
line, timestamp line, description block, and the trailing blank line.
`none` models an exception escaping `create_entry`. -/
def create_entry (cv : Convertor) (comp : VEvent) : Option String :=
  match timestampPart comp.dtstart (computeEnd comp.dtstart comp) cv.tz with
  | none => none
  | some ts => some (titlePart comp ++ ts ++ descriptionPart comp ++ "\n")

/-! ### The driver: `create_org_calendar`, `__call__`, and the CLI glue -/

/-- Observable outcome of `create_org_calendar` run on the expander's
occurrence list: the blocks the generator yielded, the components whose raw
`to_ical()` text was printed to stderr (in order), and whether the generator
re-raised (aborted) — which happens on a failing occurrence exactly when
`continue_on_error` is false. -/
structure RunResult where
  blocks : List String
  diags : List VEvent
  aborted : Bool
deriving DecidableEq

/-- Source `Convertor.create_org_calendar`, applied to the occurrence list
the external expander (`recurring_ical_events ... .between(start, end)`)
yields for the window.  A failing occurrence is always reported to stderr
(its raw text; plus the traceback when continuing); then the run either
continues with the next occurrence or re-raises, ending the generator. -/
def create_org_calendar (cv : Convertor) : List VEvent → RunResult
  | [] => ⟨[], [], false⟩
  | c :: rest =>
    match create_entry cv c with
    | some b =>
      let r := create_org_calendar cv rest
      ⟨b :: r.blocks, r.diags, r.aborted⟩
    | none =>
      if cv.continue_on_error then
        let r := create_org_calendar cv rest
        ⟨r.blocks, c :: r.diags, r.aborted⟩
      else ⟨[], [c], true⟩

/-- The error a conversion run can abort with: `IcalParsingError` (wrapping
the parser's message) or an unhandled formatting exception propagating out
of the generator. -/
inductive RunError where
  | icalParsing (msg : String)
  | formatFailure
deriving DecidableEq

/-- Source `Convertor.__call__(fh, fh_w)`.  The external parse
(`Calendar.from_ical`, which signals malformed input with a `ValueError`
message) composed with the external expander is abstracted as its outcome:
either the parser's error message or the expanded occurrence list.  On
parser failure the `ValueError` is re-raised as an `IcalParsingError`
wrapping the message.  Otherwise `"".join(...)` drains the generator first
and `fh_w.write` runs after it, so an `Except.ok s` is exactly the text
written to the output stream, and on either error nothing at all is
written. -/
def convertorCall (cv : Convertor)
    (parsed : Except String (List VEvent)) : Except RunError String :=
  match parsed with
  | .error e => .error (.icalParsing ("ERROR parsing ical file: " ++ e))
  | .ok comps =>
    let r := create_org_calendar cv comps
    if r.aborted then .error .formatFailure
    else .ok (String.join r.blocks)

/-- Model of `click.IntRange(min, clamp)` parameter conversion on an integer
argument (click semantics: with `clamp` set, an out-of-range value is
silently clamped to the nearest bound instead of being rejected). -/
def intRangeConvert (minVal : Int) (clamp : Bool) (v : Int) :
    Except String Int :=
  if v < minVal then
    if clamp then .ok minVal else .error "out of range"
  else .ok v

/-- The `--days` option conversion the source declares:
`type=click.IntRange(0, clamp=True)`. -/
def daysOptionValue (v : Int) : Except String Int :=
  intRangeConvert 0 true v

/-! ### A rendering definition taken from the spec's words, and sample data -/

/-- Modelled from the spec: "`orgDatetime(dt, tz)` equals `dt` converted to
`tz` formatted as `<YYYY-MM-DD Dow HH:MM>`" with a three-letter English
weekday abbreviation and a zero-padded 24-hour clock, assembled here field
by field from the converted local wall-clock time, to be compared with the
source's `orgDatetime`. -/
def specRenderInstant (dt : Int) (tz : Timezone) : String :=
  let lm := astimezone dt tz
  let day := Int.fdiv lm 1440
  let c := civilFromDays day
  let tod := (Int.emod lm 1440).toNat
  "<" ++ pad4 c.1 ++ "-" ++ pad2 c.2.1 ++ "-" ++ pad2 c.2.2 ++ " "
    ++ weekdayAbbrev day ++ " " ++ pad2 (tod / 60) ++ ":" ++ pad2 (tod % 60)
    ++ ">"

/-- A convertor displaying in UTC, not continuing on error. -/
def cvUtc : Convertor := ⟨utc, 90, false⟩

/-- A convertor displaying in UTC, continuing on error. -/
def cvUtcCont : Convertor := ⟨utc, 90, true⟩

/-- A component with every optional property absent. -/
def emptyComp : VEvent := ⟨none, none, none, none, none, false, none⟩

/-- A component with an aware-datetime `DTSTART` but neither `DTEND` nor
`DURATION` (the instant is the epoch). -/
def crashComp : VEvent := ⟨none, none, some (.dateTime 0), none, none, false, none⟩

/-- A component with a present-but-empty `DESCRIPTION` and nothing else. -/
def descEmptyComp : VEvent := ⟨none, none, none, none, none, false, some ""⟩

/-- The spec's multi-day all-day example: `DTSTART` 2020-01-01, `DTEND`
2020-01-04, both plain dates. -/
def alldayComp : VEvent :=
  ⟨none, none, some (.onlyDate (daysFromCivil 2020 1 1)),
    some (.onlyDate (daysFromCivil 2020 1 4)), none, false, none⟩

/-- The spec's single-day all-day example: `DTSTART` 2020-01-01, `DTEND`
2020-01-02, both plain dates. -/
def alldaySingleComp : VEvent :=
  ⟨none, none, some (.onlyDate (daysFromCivil 2020 1 1)),
    some (.onlyDate (daysFromCivil 2020 1 2)), none, false, none⟩

/-! ### General helper lemmas -/

/-- String concatenation is associative (it is list concatenation of the
character data). -/
theorem strAppend_assoc (a b c : String) : a ++ b ++ c = a ++ (b ++ c) := by
  apply String.ext
  simp [String.data_append]

/-- The empty string is a right identity of concatenation. -/
theorem strAppend_right_empty (a : String) : a ++ "" = a := by
  apply String.ext
  simp [String.data_append]

/-- Every non-empty string `timestampPart` successfully returns ends in a
newline character. -/
theorem timestampPart_ends (a b : Option DT) (tz : Timezone) (ts : String)
    (h : timestampPart a b tz = some ts) :
    ts.data = [] ∨ ∃ u, ts.data = u ++ ['\n'] := by
  have hnl : ("\n" : String).data = ['\n'] := rfl
  cases a with
  | none =>
    simp [timestampPart] at h
    left
    rw [← h]
  | some dt =>
    cases dt with
    | dateTime t =>
      cases b with
      | none => simp [timestampPart] at h
      | some e =>
        cases e with
        | dateTime t2 =>
          simp [timestampPart] at h
          right
          refine ⟨' ' :: ' ' :: ((orgDatetime t tz).data
            ++ '-' :: '-' :: (orgDatetime t2 tz).data), ?_⟩
          rw [← h]
          simp [String.data_append, hnl]
        | onlyDate d => simp [timestampPart] at h
    | onlyDate d =>
      cases b with
      | none => simp [timestampPart] at h
      | some e =>
        cases e with
        | onlyDate e2 =>
          by_cases hde : d = e2 - 1
          · simp [timestampPart, hde] at h
            right
            refine ⟨' ' :: ' ' :: (orgDate (DT.onlyDate (e2 - 1)) tz).data, ?_⟩
            rw [← h]
            simp [String.data_append, hnl]
          · simp [timestampPart, hde] at h
            right
            refine ⟨' ' :: ' ' :: ((orgDate (DT.onlyDate d) tz).data
              ++ '-' :: '-' :: (orgDate (DT.onlyDate (e2 - 1)) tz).data), ?_⟩
            rw [← h]
            simp [String.data_append, hnl]
        | dateTime t2 =>
          simp [timestampPart] at h
          right
          refine ⟨' ' :: ' ' :: ((orgDate (DT.onlyDate d) tz).data
            ++ '-' :: '-' :: (orgDate (DT.dateTime (t2 - 1440)) tz).data), ?_⟩
          rw [← h]
          simp [String.data_append, hnl]

/-- The description block is empty or ends in a newline character. -/
theorem descriptionPart_ends (comp : VEvent) :
    (descriptionPart comp).data = []
    ∨ ∃ v, (descriptionPart comp).data = v ++ ['\n'] := by
  have hnl : ("\n" : String).data = ['\n'] := rfl
  cases hd : comp.description with
  | none => left; simp [descriptionPart, hd]
  | some s =>
    right
    refine ⟨(unescapeCommas (unescapeNewlines s)).data, ?_⟩
    simp [descriptionPart, hd, String.data_append, hnl]

/-- The heading line starts with a star, a space, and ends in a newline. -/
theorem titlePart_data (comp : VEvent) :
    ∃ tcore : List Char,
      (titlePart comp).data = '*' :: ' ' :: (tcore ++ ['\n']) := by
  have hst : ("* " : String).data = ['*', ' '] := rfl
  have hnl : ("\n" : String).data = ['\n'] := rfl
  refine ⟨((if fieldText comp.summary = "" ∧ fieldText comp.location = ""
      then "(No title)"
      else if fieldText comp.location = "" then fieldText comp.summary
      else fieldText comp.summary ++ " - " ++ fieldText comp.location).data
    ++ (if comp.rrule then RECUR_TAG else "").data), ?_⟩
  simp [titlePart, String.data_append, hst, hnl]

/-! ### The claims -/

/-- Claim C1 as stated is false at a concrete input: for a component with
an aware-datetime `start` and both `end` and `duration` absent,
`create_entry` does not return a text block — it raises (`orgDatetime` is
applied to `None`). -/
theorem create_entry_total_counterexample :
    ¬ ∃ out : String, create_entry cvUtc crashComp = some out := by
  rintro ⟨out, h⟩
  rw [show create_entry cvUtc crashComp = none from rfl] at h
  exact Option.noConfusion h

/-- Claim C1 (amended): when `end` is absent but `duration` is present the
effective end is `start + duration`; when `end`, `duration` and `start` are
all absent the formatter returns a block with no interval rendered; but
when `start` is present while `end` and `duration` are both absent the
formatter fails instead of returning a block. -/
theorem create_entry_end_derivation (cv : Convertor) (comp : VEvent)
    (hend : comp.dtend = none) :
    (∀ s dur, comp.dtstart = some s → comp.duration = some dur →
      computeEnd comp.dtstart comp = some (addDur s dur))
    ∧ (comp.duration = none → comp.dtstart = none →
        create_entry cv comp
          = some (titlePart comp ++ "" ++ descriptionPart comp ++ "\n"))
    ∧ (comp.duration = none → ∀ s, comp.dtstart = some s →
        create_entry cv comp = none) := by
  refine ⟨fun s dur hs hd => ?_, fun hd hs => ?_, fun hd s hs => ?_⟩
  · simp [computeEnd, hend, hd, hs]
  · simp [create_entry, computeEnd, timestampPart, hend, hd, hs]
  · cases s <;> simp [create_entry, hs, computeEnd, hend, hd, timestampPart]

/-- Witness for the amended claim C1, at two concrete components. -/
theorem create_entry_end_derivation_witness :
    create_entry cvUtc emptyComp = some ("* (No title)\n" ++ "" ++ "" ++ "\n")
    ∧ create_entry cvUtc crashComp = none := by
  constructor
  · exact ((create_entry_end_derivation cvUtc emptyComp rfl).2.1 rfl rfl).trans
      (by decide)
  · exact (create_entry_end_derivation cvUtc crashComp rfl).2.2 rfl _ rfl

/-- Claim C2: when `DTSTART` and `DTEND` are both plain calendar dates, the
timestamp line is two spaces and `orgDate(start)` alone when
`start = end - 1 day`, and otherwise the range from `orgDate(start)` to
`orgDate(end - 1 day)` — the exclusive end date is decremented by one day
before display in the range case. -/
theorem allday_timestamp (cv : Convertor) (comp : VEvent) (d e : Int)
    (hs : comp.dtstart = some (.onlyDate d))
    (he : comp.dtend = some (.onlyDate e)) :
    create_entry cv comp = some (titlePart comp
      ++ (if d = e - 1 then "  " ++ orgDate (.onlyDate d) cv.tz ++ "\n"
          else "  " ++ orgDate (.onlyDate d) cv.tz ++ "--"
            ++ orgDate (.onlyDate (e - 1)) cv.tz ++ "\n")
      ++ descriptionPart comp ++ "\n") := by
  by_cases hde : d = e - 1 <;>
    simp [create_entry, computeEnd, hs, he, timestampPart, hde]

/-- Witness for claim C2: the spec's multi-day and single-day all-day
examples. -/
theorem allday_timestamp_witness :
    create_entry cvUtc alldayComp
      = some "* (No title)\n  <2020-01-01 Wed>--<2020-01-03 Fri>\n\n"
    ∧ create_entry cvUtc alldaySingleComp
      = some "* (No title)\n  <2020-01-01 Wed>\n\n" := by
  constructor
  · exact (allday_timestamp cvUtc alldayComp _ _ rfl rfl).trans (by decide)
  · exact (allday_timestamp cvUtc alldaySingleComp _ _ rfl rfl).trans (by decide)

/-- Claim C3: `orgDatetime(dt, tz)` equals `dt` converted into `tz` and
formatted as `<YYYY-MM-DD Dow HH:MM>` for every instant and timezone, and
on the two Prague test instants it yields `<2017-12-15 Fri 18:35>` and
`<2017-12-15 Fri 19:35>`. -/
theorem orgDatetime_spec :
    (∀ dt : Int, ∀ tz : Timezone, orgDatetime dt tz = specRenderInstant dt tz)
    ∧ orgDatetime (utcInstant 2017 12 15 17 35) prague
        = "<2017-12-15 Fri 18:35>"
    ∧ orgDatetime (utcInstant 2017 12 15 18 35) prague
        = "<2017-12-15 Fri 19:35>" := by
  refine ⟨fun dt tz => ?_, by decide, by decide⟩
  simp [orgDatetime, specRenderInstant, strftimeDatetimeFmt, fmtYMD,
    strAppend_assoc]

/-- Claim C4 as stated is false at a concrete input: a negative `--days`
value is not reported as an error by the option conversion the source
declares (`click.IntRange(0, clamp=True)`). -/
theorem days_negative_counterexample :
    ¬ ∃ msg : String, daysOptionValue (-5) = Except.error msg := by
  rintro ⟨msg, h⟩
  rw [show daysOptionValue (-5) = Except.ok 0 from rfl] at h
  exact Except.noConfusion h

/-- Claim C4 (amended): a negative `--days` value is silently clamped to 0
by `click.IntRange(0, clamp=True)` and the run proceeds with that altered
value; it is not rejected. -/
theorem days_negative_clamped (v : Int) (hv : v < 0) :
    daysOptionValue v = Except.ok 0 := by
  simp [daysOptionValue, intRangeConvert, hv]

/-- Witness for the amended claim C4 at `--days -5`. -/
theorem days_negative_clamped_witness :
    (-5 : Int) < 0 ∧ daysOptionValue (-5) = Except.ok 0 :=
  ⟨by decide, days_negative_clamped (-5) (by decide)⟩

/-- Claim C5: whenever the calendar parse fails, `Convertor.__call__`
raises an `IcalParsingError` wrapping the parser's message, and no output
text is ever produced (the write happens only after a successful parse and
a full join). -/
theorem parse_error_aborts (cv : Convertor) (msg : String) :
    convertorCall cv (.error msg)
      = .error (.icalParsing ("ERROR parsing ical file: " ++ msg))
    ∧ ∀ out : String, convertorCall cv (.error msg) ≠ Except.ok out := by
  refine ⟨rfl, fun out h => ?_⟩
  simp [convertorCall] at h

/-- Witness for claim C5 on a concrete parser message. -/
theorem parse_error_aborts_witness :
    convertorCall cvUtc (.error "bad input")
      = .error (.icalParsing "ERROR parsing ical file: bad input")
    ∧ convertorCall cvUtc (.error "bad input") ≠ Except.ok "" := by
  have h := parse_error_aborts cvUtc "bad input"
  refine ⟨h.1.trans ?_, h.2 ""⟩
  rw [show ("ERROR parsing ical file: " ++ "bad input" : String)
      = "ERROR parsing ical file: bad input" from by decide]

/-- Claim C6: with continue-on-error true, every occurrence whose
formatting succeeds contributes its block, every failing occurrence is
reported to the diagnostic channel, and the run never aborts; with
continue-on-error false, the first failing occurrence is reported and the
failure propagates immediately — only the blocks of the occurrences before
it were produced and nothing after it is formatted. -/
theorem error_policy (cv : Convertor) (comps : List VEvent) :
    (cv.continue_on_error = true →
      create_org_calendar cv comps
        = ⟨comps.filterMap (create_entry cv),
           comps.filter (fun c => (create_entry cv c).isNone),
           false⟩)
    ∧ (cv.continue_on_error = false →
       ∀ pre c post, comps = pre ++ c :: post →
        (∀ x ∈ pre, (create_entry cv x).isSome) →
        create_entry cv c = none →
        create_org_calendar cv comps
          = ⟨pre.filterMap (create_entry cv), [c], true⟩) := by
  constructor
  · intro hcont
    induction comps with
    | nil => simp [create_org_calendar]
    | cons c rest ih =>
      cases h : create_entry cv c with
      | some b => simp [create_org_calendar, h, ih]
      | none => simp [create_org_calendar, h, hcont, ih]
  · intro hcont pre c post hcomps hpre hc
    subst hcomps
    induction pre with
    | nil => simp [create_org_calendar, hc, hcont]
    | cons x pre ih =>
      obtain ⟨b, hb⟩ := Option.isSome_iff_exists.mp (hpre x (by simp))
      have ih2 := ih (fun y hy => hpre y (by simp [hy]))
      simp [create_org_calendar, hb, ih2]

/-- Witness for claim C6 on a concrete mixed occurrence list in both
modes. -/
theorem error_policy_witness :
    create_org_calendar cvUtcCont [emptyComp, crashComp]
      = ⟨["* (No title)\n\n"], [crashComp], false⟩
    ∧ create_org_calendar cvUtc [emptyComp, crashComp, emptyComp]
      = ⟨["* (No title)\n\n"], [crashComp], true⟩ := by
  constructor
  · exact ((error_policy cvUtcCont [emptyComp, crashComp]).1 rfl).trans
      (by decide)
  · exact ((error_policy cvUtc [emptyComp, crashComp, emptyComp]).2 rfl
      [emptyComp] crashComp [emptyComp] rfl (by decide) (by decide)).trans
      (by decide)

/-- Claim C7: when summary and location are both absent or empty after
unescaping, the heading is exactly `* (No title)`, the recurrence tag, and
a newline; otherwise the heading is the unescaped summary with
`" - " + location` appended exactly when the location is non-empty. -/
theorem title_composition (comp : VEvent) :
    (fieldText comp.summary = "" → fieldText comp.location = "" →
      titlePart comp
        = "* (No title)" ++ (if comp.rrule then RECUR_TAG else "") ++ "\n")
    ∧ (¬ (fieldText comp.summary = "" ∧ fieldText comp.location = "") →
      titlePart comp
        = "* " ++ fieldText comp.summary
          ++ (if fieldText comp.location = "" then ""
              else " - " ++ fieldText comp.location)
          ++ (if comp.rrule then RECUR_TAG else "") ++ "\n") := by
  constructor
  · intro h1 h2
    rw [show ("* (No title)" : String) = "* " ++ "(No title)" from by decide]
    simp [titlePart, h1, h2]
  · intro h
    by_cases hl : fieldText comp.location = ""
    · have hs : ¬ fieldText comp.summary = "" := fun hh => h ⟨hh, hl⟩
      simp [titlePart, hl, hs, strAppend_right_empty]
    · simp [titlePart, hl, strAppend_assoc]

/-- Witness for claim C7 at the component with no summary and no
location. -/
theorem title_composition_witness :
    titlePart emptyComp = "* (No title)\n" :=
  ((title_composition emptyComp).1 rfl rfl).trans (by decide)

/-- Claim C8: a present-but-empty description still yields a description
block of the empty text plus a newline — an extra empty line before the
trailing blank line — while an absent description yields no description
block at all. -/
theorem description_absent_vs_empty (cv : Convertor) (comp : VEvent)
    (ts : String)
    (hts : timestampPart comp.dtstart (computeEnd comp.dtstart comp) cv.tz
      = some ts) :
    (comp.description = some "" →
      create_entry cv comp = some (titlePart comp ++ ts ++ "\n" ++ "\n"))
    ∧ (comp.description = none →
      create_entry cv comp = some (titlePart comp ++ ts ++ "\n")) := by
  constructor
  · intro hd
    have h0 : unescapeCommas (unescapeNewlines "") ++ "\n" = "\n" := by decide
    simp [create_entry, hts, descriptionPart, hd, h0]
  · intro hd
    simp [create_entry, hts, descriptionPart, hd, strAppend_right_empty]

/-- Witness for claim C8: empty description versus absent description on
otherwise identical components. -/
theorem description_absent_vs_empty_witness :
    create_entry cvUtc descEmptyComp = some "* (No title)\n\n\n"
    ∧ create_entry cvUtc emptyComp = some "* (No title)\n\n" := by
  constructor
  · exact ((description_absent_vs_empty cvUtc descEmptyComp "" rfl).1 rfl).trans
      (by decide)
  · exact ((description_absent_vs_empty cvUtc emptyComp "" rfl).2 rfl).trans
      (by decide)

/-- Claim C9: `orgDate` drops the time-of-day — any two instants falling on
the same local calendar date render identically, a datetime is first
converted into the display timezone and formatted date-only, a plain date
is formatted as-is, and both Prague test instants yield
`<2017-12-15 Fri>`. -/
theorem orgDate_drops_time :
    (∀ t1 t2 : Int, ∀ tz : Timezone,
      Int.fdiv (astimezone t1 tz) 1440 = Int.fdiv (astimezone t2 tz) 1440 →
      orgDate (.dateTime t1) tz = orgDate (.dateTime t2) tz)
    ∧ (∀ t : Int, ∀ tz : Timezone,
        orgDate (.dateTime t) tz
          = strftimeDateFmt (Int.fdiv (astimezone t tz) 1440))
    ∧ (∀ d : Int, ∀ tz : Timezone, orgDate (.onlyDate d) tz = strftimeDateFmt d)
    ∧ orgDate (.dateTime (utcInstant 2017 12 15 17 35)) prague
        = "<2017-12-15 Fri>"
    ∧ orgDate (.dateTime (utcInstant 2017 12 15 18 35)) prague
        = "<2017-12-15 Fri>" := by
  refine ⟨fun t1 t2 tz h => ?_, fun t tz => rfl, fun d tz => rfl,
    by decide, by decide⟩
  simp only [orgDate]
  rw [h]

/-- Witness for claim C9: the two Prague instants share a local calendar
date and render identically. -/
theorem orgDate_drops_time_witness :
    Int.fdiv (astimezone (utcInstant 2017 12 15 17 35) prague) 1440
      = Int.fdiv (astimezone (utcInstant 2017 12 15 18 35) prague) 1440
    ∧ orgDate (.dateTime (utcInstant 2017 12 15 17 35)) prague
      = orgDate (.dateTime (utcInstant 2017 12 15 18 35)) prague :=
  ⟨by decide, orgDate_drops_time.1 _ _ prague (by decide)⟩

/-- Claim C10: every block `create_entry` returns begins with a star and a
space (a level-1 heading) and ends with two consecutive newline characters,
whatever combination of optional fields is present. -/
theorem block_shape (cv : Convertor) (comp : VEvent) (out : String)
    (h : create_entry cv comp = some out) :
    ∃ mid : List Char, out.data = '*' :: ' ' :: (mid ++ ['\n', '\n']) := by
  have hnl : ("\n" : String).data = ['\n'] := rfl
  rcases hts : timestampPart comp.dtstart (computeEnd comp.dtstart comp) cv.tz
    with _ | ts
  · rw [create_entry, hts] at h
    exact Option.noConfusion h
  · rw [create_entry, hts] at h
    have hout : out.data
        = (titlePart comp).data ++ ts.data ++ (descriptionPart comp).data
          ++ ['\n'] := by
      have := congrArg String.data (Option.some.inj h)
      simp [String.data_append, hnl] at this
      simpa [String.data_append, hnl] using this.symm
    obtain ⟨tc, htc⟩ := titlePart_data comp
    rcases descriptionPart_ends comp with hd0 | ⟨v, hv⟩
    · rcases timestampPart_ends _ _ _ _ hts with ht0 | ⟨u, hu⟩
      · exact ⟨tc, by simp [hout, htc, hd0, ht0]⟩
      · exact ⟨tc ++ '\n' :: u, by simp [hout, htc, hd0, hu]⟩
    · exact ⟨tc ++ '\n' :: (ts.data ++ v), by simp [hout, htc, hv]⟩

/-- Witness for claim C10 at the all-optional-fields-absent component. -/
theorem block_shape_witness :
    ∃ mid : List Char,
      ("* (No title)\n\n" : String).data
        = '*' :: ' ' :: (mid ++ ['\n', '\n']) :=
  block_shape cvUtc emptyComp "* (No title)\n\n" (by decide)

end Ical2Org
